import Mathlib

/-!
Verification of the PaperArch workflow state machine and AI-gateway decoding
layer, shallowly embedded from `src/App.tsx` and `src/services/geminiService.ts`.

The React component state of `App` (src/App.tsx lines 60-67) becomes an explicit
`AppState` record; each event handler becomes a pure state-transition function.
The outcome of an awaited Gateway call (success value or thrown error message)
is passed in explicitly as an oracle argument, so a handler is modelled as one
atomic step from the state at invocation to the state after its `finally` block.
`Date.now()` timestamps are likewise supplied by the oracle.

JavaScript truthiness notes, used throughout:
- `!!analysis` for an object-or-null field is exactly `Option.isSome`;
- `!refinementInput` for a string is exactly equality with `""`;
- `!!currentImage` is modelled as `Option.isSome`: the only values ever stored
  are Gateway results of the form `"data:image/png;base64," ++ data` and
  history `imageUrl`s copied from such results, which are never the empty
  string, so null-ness and JS falsiness coincide on this field.
-/

namespace PaperArch

/-- Conference venues, from `enum ConferenceType` in src/types.ts. -/
inductive ConferenceType
  | ACL | EMNLP | KDD | ICML | NEURIPS | CVPR | ICCV | AAAI
deriving DecidableEq, Repr

/-- Workflow stages, from `enum AppStep` in src/types.ts (encoded 0..3 there). -/
inductive AppStep
  | SETUP | UNDERSTANDING | GENERATION | REFINEMENT
deriving DecidableEq, Repr

/-- Result of the analyze call, from `interface PaperAnalysis` in src/types.ts. -/
structure PaperAnalysis where
  title : String
  summary : String
  layoutStrategy : String
  architectureBlueprint : String
  keyComponents : List String
deriving DecidableEq, Repr

/-- One refinement-history record, from `interface HistoryItem` in src/types.ts. -/
structure HistoryItem where
  prompt : String
  imageUrl : String
  timestamp : Nat
deriving DecidableEq, Repr

/-- The aggregate component state of `App`, from the `useState` hooks in
src/App.tsx lines 60-67. -/
structure AppState where
  step : AppStep
  conference : ConferenceType
  loading : Bool
  error : Option String
  analysis : Option PaperAnalysis
  currentImage : Option String
  refinementInput : String
  history : List HistoryItem
deriving DecidableEq, Repr

/-- The initial hook values in src/App.tsx lines 60-67: stage SETUP, conference
ACL, not loading, no error, no analysis, no image, empty draft, empty history. -/
def initialState : AppState :=
  { step := AppStep.SETUP
  , conference := ConferenceType.ACL
  , loading := false
  , error := none
  , analysis := none
  , currentImage := none
  , refinementInput := ""
  , history := [] }

/-- JavaScript `a || b` on strings: the fallback is taken when the message is
empty (or absent, collapsed here to the empty string), as in
`err.message || 'Failed to ...'`. -/
def orDefault (msg fallback : String) : String :=
  if msg = "" then fallback else msg

/-- Navigation guard, from `canNavigateTo` in src/App.tsx lines 69-76. -/
def canNavigateTo (s : AppState) (targetStep : AppStep) : Bool :=
  if s.loading = true then false
  else
    match targetStep with
    | AppStep.SETUP => true
    | AppStep.UNDERSTANDING => s.analysis.isSome
    | AppStep.GENERATION => s.currentImage.isSome
    | AppStep.REFINEMENT => s.currentImage.isSome && decide (0 < s.history.length)

/-- Explicit stage navigation, from `handleStepClick` in src/App.tsx lines
78-83: when the guard holds, set the stage and clear the error banner
(`setError(null)`); otherwise do nothing. -/
def handleStepClick (s : AppState) (targetStep : AppStep) : AppState :=
  if canNavigateTo s targetStep = true then
    { s with step := targetStep, error := none }
  else s

/-- Oracle outcome of an awaited `analyzePaper` call. -/
inductive AnalyzeOutcome
  | success (result : PaperAnalysis)
  | failure (msg : String)
deriving DecidableEq, Repr

/-- Oracle outcome of an awaited `generateDiagram` or `refineDiagram` call; a
success carries the returned image reference and the `Date.now()` instant. -/
inductive ImageOutcome
  | success (imageUrl : String) (timestamp : Nat)
  | failure (msg : String)
deriving DecidableEq, Repr

/-- The submit-document command, from `handleFileUpload` in src/App.tsx lines
85-101. The file input carries `disabled={loading}` (line 222), so the handler
is not invocable while loading; on success store the analysis and move to
UNDERSTANDING, on failure record the error message; `finally` clears loading. -/
def handleFileUpload (s : AppState) (o : AnalyzeOutcome) : AppState :=
  if s.loading = true then s
  else
    match o with
    | AnalyzeOutcome.success result =>
        { s with analysis := some result
               , step := AppStep.UNDERSTANDING
               , error := none
               , loading := false }
    | AnalyzeOutcome.failure msg =>
        { s with error := some (orDefault msg "Failed to analyze paper.")
               , loading := false }

/-- The request-generation command, from `handleGenerate` in src/App.tsx lines
103-118. The handler returns early without analysis (line 104); its button
carries `disabled={loading}` (line 317). On success it stores the image, seeds
the history with the single entry whose prompt is the literal
`'Initial Generation'` (line 110), and moves to GENERATION. -/
def handleGenerate (s : AppState) (o : ImageOutcome) : AppState :=
  if s.loading = true then s
  else if s.analysis.isSome = true then
    match o with
    | ImageOutcome.success imageUrl ts =>
        { s with currentImage := some imageUrl
               , history := [{ prompt := "Initial Generation"
                             , imageUrl := imageUrl
                             , timestamp := ts }]
               , step := AppStep.GENERATION
               , error := none
               , loading := false }
    | ImageOutcome.failure msg =>
        { s with error := some (orDefault msg "Failed to generate diagram.")
               , loading := false }
  else s

/-- The request-refinement command, from `handleRefine` in src/App.tsx lines
120-136. The handler returns early when `!currentImage || !refinementInput ||
!analysis` (line 121); its button carries
`disabled={loading || !refinementInput.trim()}` (line 407), whose loading
conjunct is modelled here; the `.trim()` conjunct only additionally suppresses
whitespace-only drafts and is not modelled (`String.trim` does not reduce in
the kernel, and the handler itself checks only non-emptiness). On success the
handler prepends the new history entry, updates the image, clears the draft
and moves to REFINEMENT. -/
def handleRefine (s : AppState) (o : ImageOutcome) : AppState :=
  if s.loading = true then s
  else if s.currentImage.isSome = true ∧ s.refinementInput ≠ "" ∧
          s.analysis.isSome = true then
    match o with
    | ImageOutcome.success imageUrl ts =>
        { s with currentImage := some imageUrl
               , history := { prompt := s.refinementInput
                            , imageUrl := imageUrl
                            , timestamp := ts } :: s.history
               , refinementInput := ""
               , step := AppStep.REFINEMENT
               , error := none
               , loading := false }
    | ImageOutcome.failure msg =>
        { s with error := some (orDefault msg "Failed to refine diagram.")
               , loading := false }
  else s

/-- Selecting a history thumbnail, from the onClick at src/App.tsx line 425:
`setCurrentImage(item.imageUrl)` for an existing entry of `history`; nothing
else changes. An out-of-range index corresponds to no rendered button. -/
def selectHistoryEntry (s : AppState) (i : Nat) : AppState :=
  match s.history[i]? with
  | some item => { s with currentImage := some item.imageUrl }
  | none => s

/-- The reset command, from `reset` in src/App.tsx lines 138-144: it restores
stage, analysis, image, history and error, and touches nothing else (in
particular `conference` and `refinementInput` keep their values). -/
def reset (s : AppState) : AppState :=
  { s with step := AppStep.SETUP
         , analysis := none
         , currentImage := none
         , history := []
         , error := none }

/-- Conference selection, from `setConference(type)` at src/App.tsx line 202. -/
def setConference (s : AppState) (c : ConferenceType) : AppState :=
  { s with conference := c }

/-- Draft editing, from `setRefinementInput(e.target.value)` at src/App.tsx
line 401. -/
def setRefinementInput (s : AppState) (t : String) : AppState :=
  { s with refinementInput := t }

/-- The command alphabet of the workflow state machine; each constructor names
the handler it drives and carries that handler's oracle outcome or argument. -/
inductive Command
  | submitDocument (o : AnalyzeOutcome)
  | requestGeneration (o : ImageOutcome)
  | requestRefinement (o : ImageOutcome)
  | selectHistory (i : Nat)
  | navigateTo (targetStep : AppStep)
  | doReset
  | setConf (c : ConferenceType)
  | setDraft (t : String)

/-- One atomic step of the state machine. -/
def applyCommand (s : AppState) : Command → AppState
  | Command.submitDocument o => handleFileUpload s o
  | Command.requestGeneration o => handleGenerate s o
  | Command.requestRefinement o => handleRefine s o
  | Command.selectHistory i => selectHistoryEntry s i
  | Command.navigateTo t => handleStepClick s t
  | Command.doReset => reset s
  | Command.setConf c => setConference s c
  | Command.setDraft t => setRefinementInput s t

/-- States reachable from the initial state by any command sequence. -/
inductive Reachable : AppState → Prop
  | init : Reachable initialState
  | step {s : AppState} (h : Reachable s) (c : Command) :
      Reachable (applyCommand s c)

/-! ## AI Gateway layer, from src/services/geminiService.ts -/

/-- A JSON value, the codomain of a successful `JSON.parse`. -/
inductive JValue
  | jnull
  | jbool (b : Bool)
  | jnum (n : Int)
  | jstr (s : String)
  | jarr (xs : List JValue)
  | jobj (fields : List (String × JValue))

/-- The analyze response's `response.text`, classified by how
`JSON.parse(response.text || '{}')` treats it: absent (undefined or the empty
string, both falsy, so replaced by the literal `'{}'`), present but not valid
JSON (`JSON.parse` throws), or present and parsing to a value. -/
inductive ResponseText
  | absent
  | malformed (raw : String)
  | wellFormed (v : JValue)

/-- Decoding stage of `analyzePaper`, from src/services/geminiService.ts lines
86-87: `const text = response.text || '{}'; return JSON.parse(text);`. An
absent text is replaced by `'{}'` and parses to the empty object; a malformed
text makes `JSON.parse` throw; a well-formed text is returned as parsed, with
no check of its fields. The error payload is `Unit` because the exception's
message is produced by the JavaScript engine, not by this code. -/
def analyzePaperDecode : ResponseText → Except Unit JValue
  | ResponseText.absent => Except.ok (JValue.jobj [])
  | ResponseText.malformed _ => Except.error ()
  | ResponseText.wellFormed v => Except.ok v

/-- The `required` field list of the response schema sent with the analyze
request, src/services/geminiService.ts line 81. -/
def requiredAnalysisFields : List String :=
  ["title", "summary", "layoutStrategy", "architectureBlueprint", "keyComponents"]

/-- Whether an object value carries a field named `k`. -/
def hasField (fields : List (String × JValue)) (k : String) : Bool :=
  fields.any (fun f => f.1 = k)

/-- Modelled from the spec: a decoded analyze response is complete when it is
an object carrying all five required PaperAnalysis fields. The source performs
no such client-side check; this definition exists to compare the spec's error
contract against `analyzePaperDecode`. -/
def isCompleteAnalysis : JValue → Bool
  | JValue.jobj fields => requiredAnalysisFields.all (hasField fields)
  | _ => false

/-- An inline-data payload of a response (or request) part, with JS-optional
fields. -/
structure InlineData where
  data : Option String
  mimeType : Option String
deriving DecidableEq, Repr

/-- A content part of a backend response or request: either a text part or an
inline-data part (each field JS-optional). -/
structure ResponsePart where
  text : Option String
  inlineData : Option InlineData
deriving DecidableEq, Repr

/-- First part carrying an `inlineData` field, from
`response.candidates?.[0]?.content?.parts.find(p => p.inlineData)` at
src/services/geminiService.ts lines 129 and 174 (an object-valued `inlineData`
is truthy even when empty). -/
def findInlineDataPart (parts : List ResponsePart) : Option ResponsePart :=
  parts.find? (fun p => p.inlineData.isSome)

/-- The truthiness test `part?.inlineData?.data` at lines 130 and 175: the
chosen part must exist, carry inline data, and its `data` string must be
present and non-empty. -/
def truthyData (p : Option ResponsePart) : Option String :=
  match p with
  | some part =>
      match part.inlineData with
      | some d =>
          match d.data with
          | some raw => if raw = "" then none else some raw
          | none => none
      | none => none
  | none => none

/-- Image extraction shared by `generateDiagram` and `refineDiagram`
(src/services/geminiService.ts lines 129-134 and 174-179): wrap the first
truthy inline payload as a data URI, otherwise throw the given message. -/
def extractImage (parts : List ResponsePart) (errMsg : String) :
    Except String String :=
  match truthyData (findInlineDataPart parts) with
  | some raw => Except.ok ("data:image/png;base64," ++ raw)
  | none => Except.error errMsg

/-- Result of `generateDiagram` as a function of the response parts, with its
failure message from line 134. -/
def generateDiagramResult (parts : List ResponsePart) : Except String String :=
  extractImage parts "Failed to generate image data from Nano Banana."

/-- Result of `refineDiagram` as a function of the response parts, with its
failure message from line 179. -/
def refineDiagramResult (parts : List ResponsePart) : Except String String :=
  extractImage parts "Failed to refine diagram."

/-- Modelled from the spec: some part of the response carries a non-empty
inline image payload. Used to compare the spec's failure contract ("fails iff
no inline image payload is found among the parts") with the source's
first-part extraction. -/
def hasInlineImagePayload (parts : List ResponsePart) : Bool :=
  parts.any (fun p =>
    match p.inlineData with
    | some d =>
        match d.data with
        | some raw => raw ≠ ""
        | none => false
    | none => false)

/-- Document argument of `analyzePaper`: raw text, or a file already read as
base64 bytes plus a mime type (the `fileToBase64` branch of lines 17-28). -/
inductive DocContent
  | text (s : String)
  | file (base64 : String) (mimeType : String)
deriving DecidableEq, Repr

/-- The `contentPart` built from the document at src/services/geminiService.ts
lines 17-28. -/
def contentPartOf : DocContent → ResponsePart
  | DocContent.text s => { text := some s, inlineData := none }
  | DocContent.file base64 mime =>
      { text := none, inlineData := some { data := some base64, mimeType := some mime } }

/-- The fixed instructional prompt of `analyzePaper`,
src/services/geminiService.ts lines 30-62. -/
def analysisPromptText : String :=
"
# Role
你是一位 CVPR/NeurIPS 顶刊的**视觉架构师**。你的核心能力是将抽象的论文逻辑转化为**具体的、结构化的、几何级的视觉指令**。

# Objective
阅读我提供的论文内容，输出一份 **[VISUAL SCHEMA]**。这份 Schema 将被直接发送给 AI 绘图模型，因此必须使用**强硬的物理描述**。

# Phase 1: Layout Strategy Selector (关键步骤：布局决策)
在生成 Schema 之前，请先 analysis 论文逻辑，从以下**布局原型**中选择最合适的一个（或组合）：
1. **Linear Pipeline**: 左→右流向 (适合 Data Processing, Encoding-Decoding)。
2. **Cyclic/Iterative**: 中心包含循环箭头 (适合 Optimization, RL, Feedback Loops)。
3. **Hierarchical Stack**: 上→下或下→上堆叠 (适合 Multiscale features, Tree structures)。
4. **Parallel/Dual-Stream**: 上下平行的双流结构 (适合 Multi-modal fusion, Contrastive Learning)。
5. **Central Hub**: 一个核心模块连接四周组件 (适合 Agent-Environment, Knowledge Graphs)。

# Phase 2: Schema Generation Rules
1. **Dynamic Zoning**: 根据选择的布局，定义 2-5 个物理区域 (Zones)。不要局限于 3 个。
2. **Internal Visualization**: 必须定义每个区域内部的“物体” (Icons, Grids, Trees)，禁止使用抽象概念。
3. **Explicit Connections**: 如果是循环过程，必须明确描述 \"Curved arrow looping back from Zone X to Zone Y\"。

# Instructions for Output
Analyze the paper and return your findings in JSON format.
The \"architectureBlueprint\" field must contain the \"Golden Schema\" starting with ---BEGIN PROMPT--- and ending with ---END PROMPT--- following your defined rules.

Return JSON structure:
\x7b
  \"title\": \"Short descriptive title of the paper\",
  \"summary\": \"2-3 sentence summary of the core contribution\",
  \"layoutStrategy\": \"One of: Linear Pipeline, Cyclic/Iterative, Hierarchical Stack, Parallel/Dual-Stream, Central Hub\",
  \"architectureBlueprint\": \"The complete Golden Schema text including Style, Layout Config, Zones, and Connections\",
  \"keyComponents\": [\"List of main modules identified\"]
\x7d
"

/-- The fixed instructional prompt `ANALYSIS_PROMPT` of the repository's
prompts module, src/unnamed/part_001 lines 3-23. -/
def ANALYSIS_PROMPT : String :=
"
# Role
你是一位 CVPR/NeurIPS 顶刊的**视觉架构师**。你的核心能力是将抽象的论文逻辑转化为**具体的、结构化的、几何级的视觉指令**。

# Objective
阅读我提供的论文内容，输出一份 **[VISUAL SCHEMA]**。这份 Schema 将被直接发送给 AI 绘图模型，因此必须使用**强硬的物理描述**。

# Phase 1: Layout Strategy Selector
1. **Linear Pipeline**: 左→右流向 (适合 Data Processing, Encoding-Decoding)。
2. **Cyclic/Iterative**: 中心包含循环箭头 (适合 Optimization, RL, Feedback Loops)。
3. **Hierarchical Stack**: 上→下或下→上堆叠 (适合 Multiscale features, Tree structures)。
4. **Parallel/Dual-Stream**: 上下平行的双流结构 (适合 Multi-modal fusion, Contrastive Learning)。
5. **Central Hub**: 一个核心模块连接四周组件 (适合 Agent-Environment, Knowledge Graphs)。

# Phase 2: Schema Generation Rules
1. **Dynamic Zoning**: 根据选择的布局，定义 2-5 个物理区域 (Zones)。
2. **Internal Visualization**: 必须定义每个区域内部的“物体” (Icons, Grids, Trees)。
3. **Explicit Connections**: 明确描述连接关系。

Return JSON structure matching the schema requested.
"

/-- The analyze request as assembled by `analyzePaper`: model name, content
parts, response mime type and the schema's required-field list
(src/services/geminiService.ts lines 64-84). -/
structure AnalyzeRequest where
  model : String
  parts : List ResponsePart
  responseMimeType : String
  requiredFields : List String
deriving DecidableEq, Repr

/-- Request construction of `analyzePaper` (src/services/geminiService.ts lines
11-84). The `conference` parameter of the function is bound but never used in
the body: it appears in neither the prompt nor the request payload. -/
def analyzePaperRequest (content : DocContent) (conference : ConferenceType) :
    AnalyzeRequest :=
  { model := "gemini-3-pro-preview"
  , parts := [contentPartOf content, { text := some analysisPromptText, inlineData := none }]
  , responseMimeType := "application/json"
  , requiredFields := requiredAnalysisFields }

/-- Request construction of the variant `analyzePaper` (src/unnamed part of
the services module, lines 201-240), which uses `ANALYSIS_PROMPT` and likewise
never uses its `conference` parameter. -/
def analyzePaperRequestVariant (content : DocContent) (conference : ConferenceType) :
    AnalyzeRequest :=
  { model := "gemini-3-pro-preview"
  , parts := [contentPartOf content, { text := some ANALYSIS_PROMPT, inlineData := none }]
  , responseMimeType := "application/json"
  , requiredFields := requiredAnalysisFields }

/-! ## Theorems -/

/-- Strengthened inductive invariant: the three spec invariants, plus two
auxiliary facts needed for induction (an image implies an analysis, and a
non-empty history implies an analysis). -/
def Inv (s : AppState) : Prop :=
  ((s.step = AppStep.GENERATION ∨ s.step = AppStep.REFINEMENT) →
      s.currentImage.isSome = true) ∧
  ((s.step = AppStep.UNDERSTANDING ∨ s.step = AppStep.GENERATION ∨
      s.step = AppStep.REFINEMENT) → s.analysis.isSome = true) ∧
  (s.currentImage.isSome = true → s.history ≠ []) ∧
  (s.currentImage.isSome = true → s.analysis.isSome = true) ∧
  (s.history ≠ [] → s.analysis.isSome = true)

theorem inv_initial : Inv initialState := by
  simp [Inv, initialState]

theorem inv_preserved {s : AppState} (h : Inv s) (c : Command) :
    Inv (applyCommand s c) := by
  obtain ⟨ha, hb, hc, hd, he⟩ := h
  cases c with
  | submitDocument o =>
      simp only [applyCommand, handleFileUpload]
      split
      · exact ⟨ha, hb, hc, hd, he⟩
      · cases o with
        | success r =>
            refine ⟨?_, ?_, ?_, ?_, ?_⟩ <;> intro hx <;> simp_all
        | failure m =>
            refine ⟨?_, ?_, ?_, ?_, ?_⟩ <;> intro hx <;> simp_all
  | requestGeneration o =>
      simp only [applyCommand, handleGenerate]
      split
      · exact ⟨ha, hb, hc, hd, he⟩
      · split
        · cases o with
          | success img ts =>
              refine ⟨?_, ?_, ?_, ?_, ?_⟩ <;> intro hx <;> simp_all
          | failure m =>
              refine ⟨?_, ?_, ?_, ?_, ?_⟩ <;> intro hx <;> simp_all
        · exact ⟨ha, hb, hc, hd, he⟩
  | requestRefinement o =>
      simp only [applyCommand, handleRefine]
      split
      · exact ⟨ha, hb, hc, hd, he⟩
      · split
        · cases o with
          | success img ts =>
              refine ⟨?_, ?_, ?_, ?_, ?_⟩ <;> intro hx <;> simp_all
          | failure m =>
              refine ⟨?_, ?_, ?_, ?_, ?_⟩ <;> intro hx <;> simp_all
        · exact ⟨ha, hb, hc, hd, he⟩
  | selectHistory i =>
      simp only [applyCommand, selectHistoryEntry]
      split
      · next item heq =>
          have hne : s.history ≠ [] := by
            intro hnil
            rw [hnil] at heq
            simp at heq
          refine ⟨?_, ?_, ?_, ?_, ?_⟩ <;> intro hx <;> simp_all
      · exact ⟨ha, hb, hc, hd, he⟩
  | navigateTo t =>
      simp only [applyCommand, handleStepClick]
      split
      · next hg =>
          by_cases hl : s.loading = true
          · simp [canNavigateTo, hl] at hg
          · cases t with
            | SETUP =>
                refine ⟨?_, ?_, ?_, ?_, ?_⟩ <;> intro hx <;> simp_all
            | UNDERSTANDING =>
                simp [canNavigateTo, hl] at hg
                refine ⟨?_, ?_, ?_, ?_, ?_⟩ <;> intro hx <;> simp_all
            | GENERATION =>
                simp [canNavigateTo, hl] at hg
                refine ⟨?_, ?_, ?_, ?_, ?_⟩ <;> intro hx <;> simp_all
            | REFINEMENT =>
                simp [canNavigateTo, hl] at hg
                refine ⟨?_, ?_, ?_, ?_, ?_⟩ <;> intro hx <;> simp_all
      · exact ⟨ha, hb, hc, hd, he⟩
  | doReset =>
      simp [applyCommand, reset, Inv]
  | setConf c =>
      refine ⟨?_, ?_, ?_, ?_, ?_⟩ <;> intro hx <;> simp_all [applyCommand, setConference]
  | setDraft t =>
      refine ⟨?_, ?_, ?_, ?_, ?_⟩ <;> intro hx <;> simp_all [applyCommand, setRefinementInput]

theorem reachable_inv {s : AppState} (h : Reachable s) : Inv s := by
  induction h with
  | init => exact inv_initial
  | step h c ih => exact inv_preserved ih c

/-- A sample analysis result, as in the spec's scenario. -/
def A0 : PaperAnalysis :=
  { title := "T"
  , summary := "S"
  , layoutStrategy := "Linear Pipeline"
  , architectureBlueprint := "B"
  , keyComponents := ["Encoder", "Decoder"] }

/-- C1 counterexample: after a successful analyze and a successful generation
returning img1, the seeded history entry's prompt is the literal
"Initial Generation" (src/App.tsx line 110), not the sentinel "Initial"
claimed by the spec. -/
theorem C1_initial_sentinel_counterexample :
    (handleGenerate (handleFileUpload initialState (AnalyzeOutcome.success A0))
        (ImageOutcome.success "img1" 1)).history =
      [{ prompt := "Initial Generation", imageUrl := "img1", timestamp := 1 }] ∧
    ("Initial Generation" : String) ≠ "Initial" := by
  exact ⟨rfl, by decide⟩

/-- C1 (amended): after a successful analyze, a successful generation returning
img1, and two successful refinements with non-blank drafts R1 then R2,
generation stored img1, set stage GENERATION and seeded history with exactly
one entry whose prompt is the sentinel "Initial Generation" and whose imageUrl
is img1; each refinement prepended its entry (prompt = draft, imageUrl =
returned image), updated currentImage, cleared the draft and set stage
REFINEMENT; hence the final history is newest-first [R2, R1, Initial
Generation] and currentImage is R2's image. -/
theorem C1_happy_path_effects (A : PaperAnalysis) (img1 R1 img2 R2 img3 : String)
    (t1 t2 t3 : Nat) (hR1 : R1 ≠ "") (hR2 : R2 ≠ "") :
    let s1 := handleFileUpload initialState (AnalyzeOutcome.success A)
    let s2 := handleGenerate s1 (ImageOutcome.success img1 t1)
    let s3 := handleRefine (setRefinementInput s2 R1) (ImageOutcome.success img2 t2)
    let s4 := handleRefine (setRefinementInput s3 R2) (ImageOutcome.success img3 t3)
    s2.step = AppStep.GENERATION ∧ s2.currentImage = some img1 ∧
    s2.history = [{ prompt := "Initial Generation", imageUrl := img1, timestamp := t1 }] ∧
    s3.step = AppStep.REFINEMENT ∧ s3.currentImage = some img2 ∧
    s3.refinementInput = "" ∧
    s3.history = [{ prompt := R1, imageUrl := img2, timestamp := t2 },
                  { prompt := "Initial Generation", imageUrl := img1, timestamp := t1 }] ∧
    s4.step = AppStep.REFINEMENT ∧ s4.currentImage = some img3 ∧
    s4.refinementInput = "" ∧
    s4.history = [{ prompt := R2, imageUrl := img3, timestamp := t3 },
                  { prompt := R1, imageUrl := img2, timestamp := t2 },
                  { prompt := "Initial Generation", imageUrl := img1, timestamp := t1 }] := by
  simp [handleFileUpload, handleGenerate, handleRefine, setRefinementInput,
        initialState, hR1, hR2]

/-- Witness for C1 at the spec scenario's concrete inputs. -/
theorem C1_happy_path_witness :
    let s1 := handleFileUpload initialState (AnalyzeOutcome.success A0)
    let s2 := handleGenerate s1 (ImageOutcome.success "img1" 1)
    let s3 := handleRefine (setRefinementInput s2 "make encoder blue")
                (ImageOutcome.success "img2" 2)
    let s4 := handleRefine (setRefinementInput s3 "make arrows red")
                (ImageOutcome.success "img3" 3)
    s2.step = AppStep.GENERATION ∧ s2.currentImage = some "img1" ∧
    s2.history = [{ prompt := "Initial Generation", imageUrl := "img1", timestamp := 1 }] ∧
    s3.step = AppStep.REFINEMENT ∧ s3.currentImage = some "img2" ∧
    s3.refinementInput = "" ∧
    s3.history = [{ prompt := "make encoder blue", imageUrl := "img2", timestamp := 2 },
                  { prompt := "Initial Generation", imageUrl := "img1", timestamp := 1 }] ∧
    s4.step = AppStep.REFINEMENT ∧ s4.currentImage = some "img3" ∧
    s4.refinementInput = "" ∧
    s4.history = [{ prompt := "make arrows red", imageUrl := "img3", timestamp := 3 },
                  { prompt := "make encoder blue", imageUrl := "img2", timestamp := 2 },
                  { prompt := "Initial Generation", imageUrl := "img1", timestamp := 1 }] :=
  C1_happy_path_effects A0 "img1" "make encoder blue" "img2" "make arrows red" "img3"
    1 2 3 (by decide) (by decide)

/-- C2: in every state reachable from the initial state by the defined
commands, currentImage is non-null at stage GENERATION or REFINEMENT, analysis
is non-null at stage UNDERSTANDING, GENERATION or REFINEMENT, and history is
non-empty whenever currentImage is non-null. -/
theorem C2_state_invariants (s : AppState) (h : Reachable s) :
    ((s.step = AppStep.GENERATION ∨ s.step = AppStep.REFINEMENT) →
        s.currentImage.isSome = true) ∧
    ((s.step = AppStep.UNDERSTANDING ∨ s.step = AppStep.GENERATION ∨
        s.step = AppStep.REFINEMENT) → s.analysis.isSome = true) ∧
    (s.currentImage.isSome = true → s.history ≠ []) := by
  obtain ⟨ha, hb, hc, _, _⟩ := reachable_inv h
  exact ⟨ha, hb, hc⟩

/-- Witness for C2 at the concrete reachable state after a successful analyze
and a successful generation. -/
theorem C2_state_invariants_witness :
    let s := applyCommand
      (applyCommand initialState (Command.submitDocument (AnalyzeOutcome.success A0)))
      (Command.requestGeneration (ImageOutcome.success "data:image/png;base64,abc" 1))
    ((s.step = AppStep.GENERATION ∨ s.step = AppStep.REFINEMENT) →
        s.currentImage.isSome = true) ∧
    ((s.step = AppStep.UNDERSTANDING ∨ s.step = AppStep.GENERATION ∨
        s.step = AppStep.REFINEMENT) → s.analysis.isSome = true) ∧
    (s.currentImage.isSome = true → s.history ≠ []) :=
  C2_state_invariants _
    (Reachable.step
      (Reachable.step Reachable.init (Command.submitDocument (AnalyzeOutcome.success A0)))
      (Command.requestGeneration (ImageOutcome.success "data:image/png;base64,abc" 1)))

/-- C3 counterexample: an absent analyze response is not an error — the
decoder returns the empty object (which has none of the five required fields),
because of the `response.text || '{}'` default at
src/services/geminiService.ts line 86. -/
theorem C3_absent_response_counterexample :
    analyzePaperDecode ResponseText.absent = Except.ok (JValue.jobj []) ∧
    isCompleteAnalysis (JValue.jobj []) = false :=
  ⟨rfl, rfl⟩

/-- C3 (amended): analyzePaper's decode stage fails exactly when the response
text is present, non-empty and malformed JSON; an absent or empty response is
silently defaulted to the empty object, and a well-formed response is returned
as parsed with no client-side check of the five required fields (a partial or
empty PaperAnalysis is returned without error). -/
theorem C3_decode_behaviour :
    analyzePaperDecode ResponseText.absent = Except.ok (JValue.jobj []) ∧
    (∀ raw, analyzePaperDecode (ResponseText.malformed raw) = Except.error ()) ∧
    (∀ v, analyzePaperDecode (ResponseText.wellFormed v) = Except.ok v) :=
  ⟨rfl, fun _ => rfl, fun _ => rfl⟩

/-- C4 counterexample: from the reachable state obtained by selecting the KDD
conference, reset does not restore the default initial state — `reset`
(src/App.tsx lines 138-144) never touches `conference` (nor
`refinementInput`). -/
theorem C4_reset_counterexample :
    Reachable (setConference initialState ConferenceType.KDD) ∧
    reset (setConference initialState ConferenceType.KDD) ≠ initialState ∧
    (reset (setConference initialState ConferenceType.KDD)).conference =
      ConferenceType.KDD ∧
    initialState.conference = ConferenceType.ACL :=
  ⟨Reachable.step Reachable.init (Command.setConf ConferenceType.KDD),
   by decide, rfl, rfl⟩

/-- C4 (amended): from every reachable state, reset restores stage to SETUP and
clears analysis, currentImage, history and lastError, while conferenceTarget,
refinementDraft and isLoading keep their pre-reset values. -/
theorem C4_reset_effects (s : AppState) (h : Reachable s) :
    (reset s).step = AppStep.SETUP ∧ (reset s).analysis = none ∧
    (reset s).currentImage = none ∧ (reset s).history = [] ∧
    (reset s).error = none ∧ (reset s).loading = s.loading ∧
    (reset s).conference = s.conference ∧
    (reset s).refinementInput = s.refinementInput :=
  ⟨rfl, rfl, rfl, rfl, rfl, rfl, rfl, rfl⟩

/-- Witness for C4 at the initial state. -/
theorem C4_reset_effects_witness :
    (reset initialState).step = AppStep.SETUP ∧
    (reset initialState).analysis = none ∧
    (reset initialState).currentImage = none ∧
    (reset initialState).history = [] ∧
    (reset initialState).error = none ∧
    (reset initialState).loading = initialState.loading ∧
    (reset initialState).conference = initialState.conference ∧
    (reset initialState).refinementInput = initialState.refinementInput :=
  C4_reset_effects initialState Reachable.init

/-- C5: each AI-backed command is rejected with no state change — and hence
without consulting its Gateway outcome, which the conclusion holds for every
oracle value — when a precondition fails: loading already in progress (for all
three), analysis missing (for generation), or an empty draft or absent image
(for refinement). -/
theorem C5_precondition_rejection (s : AppState) (oa : AnalyzeOutcome)
    (og orf : ImageOutcome) :
    (s.loading = true → handleFileUpload s oa = s) ∧
    ((s.loading = true ∨ s.analysis = none) → handleGenerate s og = s) ∧
    ((s.loading = true ∨ s.refinementInput = "" ∨ s.currentImage = none) →
        handleRefine s orf = s) := by
  refine ⟨fun hl => by simp [handleFileUpload, hl], ?_, ?_⟩
  · rintro (hl | hn)
    · simp [handleGenerate, hl]
    · by_cases hl : s.loading = true <;> simp [handleGenerate, hl, hn]
  · rintro (hl | hre | hn)
    · simp [handleRefine, hl]
    · by_cases hl : s.loading = true <;> simp [handleRefine, hl, hre]
    · by_cases hl : s.loading = true <;> simp [handleRefine, hl, hn]

/-- A state in the middle of a loading operation, used to witness rejection. -/
def loadingState : AppState := { initialState with loading := true }

/-- Witness for C5: all three commands leave the loading state untouched. -/
theorem C5_precondition_rejection_witness :
    handleFileUpload loadingState (AnalyzeOutcome.failure "x") = loadingState ∧
    handleGenerate loadingState (ImageOutcome.failure "x") = loadingState ∧
    handleRefine loadingState (ImageOutcome.failure "x") = loadingState :=
  ⟨(C5_precondition_rejection loadingState (AnalyzeOutcome.failure "x")
      (ImageOutcome.failure "x") (ImageOutcome.failure "x")).1 rfl,
   (C5_precondition_rejection loadingState (AnalyzeOutcome.failure "x")
      (ImageOutcome.failure "x") (ImageOutcome.failure "x")).2.1 (Or.inl rfl),
   (C5_precondition_rejection loadingState (AnalyzeOutcome.failure "x")
      (ImageOutcome.failure "x") (ImageOutcome.failure "x")).2.2 (Or.inl rfl)⟩

/-- A non-loading state with a non-empty history but no current image. -/
def historyOnlyState : AppState :=
  { initialState with
      history := [{ prompt := "Initial Generation", imageUrl := "img1", timestamp := 1 }] }

/-- C6 counterexample: at a state with a non-empty history but no current
image, navigation to REFINEMENT is denied, against the claim that
canNavigate(REFINEMENT) holds iff history is non-empty — the guard at
src/App.tsx line 74 also demands `!!currentImage`. -/
theorem C6_refinement_guard_counterexample :
    canNavigateTo historyOnlyState AppStep.REFINEMENT = false ∧
    historyOnlyState.history ≠ [] ∧
    historyOnlyState.loading = false :=
  ⟨rfl, by decide, rfl⟩

/-- C6 (amended): canNavigate is false for every target while loading;
otherwise SETUP is always reachable, UNDERSTANDING iff analysis is present,
GENERATION iff currentImage is present, and REFINEMENT iff currentImage is
present and history is non-empty. -/
theorem C6_navigation_guard (s : AppState) (t : AppStep) :
    (s.loading = true → canNavigateTo s t = false) ∧
    (s.loading = false →
      (canNavigateTo s AppStep.SETUP = true ∧
       (canNavigateTo s AppStep.UNDERSTANDING = true ↔ s.analysis.isSome = true) ∧
       (canNavigateTo s AppStep.GENERATION = true ↔ s.currentImage.isSome = true) ∧
       (canNavigateTo s AppStep.REFINEMENT = true ↔
          (s.currentImage.isSome = true ∧ s.history ≠ [])))) := by
  constructor
  · intro hl
    simp [canNavigateTo, hl]
  · intro hl
    refine ⟨by simp [canNavigateTo, hl], by simp [canNavigateTo, hl],
            by simp [canNavigateTo, hl], ?_⟩
    simp [canNavigateTo, hl, List.length_pos]

/-- Witness for C6 at the initial state (not loading) and at the loading
state. -/
theorem C6_navigation_guard_witness :
    canNavigateTo loadingState AppStep.GENERATION = false ∧
    canNavigateTo initialState AppStep.SETUP = true ∧
    (canNavigateTo initialState AppStep.UNDERSTANDING = true ↔
        initialState.analysis.isSome = true) :=
  ⟨(C6_navigation_guard loadingState AppStep.GENERATION).1 rfl,
   ((C6_navigation_guard initialState AppStep.SETUP).2 rfl).1,
   ((C6_navigation_guard initialState AppStep.SETUP).2 rfl).2.1⟩

/-- C7: when the generation Gateway call fails, currentImage, history and
stage (still UNDERSTANDING) are exactly as before the call, loading is false
again, and lastError holds a non-empty message. -/
theorem C7_generation_failure_atomic (s : AppState) (m : String)
    (h1 : s.loading = false) (h2 : s.analysis.isSome = true)
    (h3 : s.step = AppStep.UNDERSTANDING) :
    (handleGenerate s (ImageOutcome.failure m)).currentImage = s.currentImage ∧
    (handleGenerate s (ImageOutcome.failure m)).history = s.history ∧
    (handleGenerate s (ImageOutcome.failure m)).step = AppStep.UNDERSTANDING ∧
    (handleGenerate s (ImageOutcome.failure m)).loading = false ∧
    ∃ e, (handleGenerate s (ImageOutcome.failure m)).error = some e ∧ e ≠ "" := by
  refine ⟨?_, ?_, ?_, ?_, ?_⟩
  · simp [handleGenerate, h1, h2]
  · simp [handleGenerate, h1, h2]
  · simp [handleGenerate, h1, h2, h3]
  · simp [handleGenerate, h1, h2]
  · refine ⟨orDefault m "Failed to generate diagram.",
            by simp [handleGenerate, h1, h2], ?_⟩
    unfold orDefault
    split
    · simp
    · next hm => exact hm

/-- Witness for C7 after a successful analyze, with an empty thrown message
(exercising the non-empty fallback). -/
theorem C7_generation_failure_atomic_witness :
    (handleGenerate (handleFileUpload initialState (AnalyzeOutcome.success A0))
        (ImageOutcome.failure "")).currentImage =
      (handleFileUpload initialState (AnalyzeOutcome.success A0)).currentImage ∧
    (handleGenerate (handleFileUpload initialState (AnalyzeOutcome.success A0))
        (ImageOutcome.failure "")).history =
      (handleFileUpload initialState (AnalyzeOutcome.success A0)).history ∧
    (handleGenerate (handleFileUpload initialState (AnalyzeOutcome.success A0))
        (ImageOutcome.failure "")).step = AppStep.UNDERSTANDING ∧
    (handleGenerate (handleFileUpload initialState (AnalyzeOutcome.success A0))
        (ImageOutcome.failure "")).loading = false ∧
    ∃ e, (handleGenerate (handleFileUpload initialState (AnalyzeOutcome.success A0))
        (ImageOutcome.failure "")).error = some e ∧ e ≠ "" :=
  C7_generation_failure_atomic
    (handleFileUpload initialState (AnalyzeOutcome.success A0)) "" rfl rfl rfl

/-- A response part carrying an inlineData object with no data payload. -/
def partNoData : ResponsePart :=
  { text := none, inlineData := some { data := none, mimeType := some "image/png" } }

/-- A response part carrying an inlineData object with a data payload. -/
def partWithData : ResponsePart :=
  { text := none, inlineData := some { data := some "abc", mimeType := some "image/png" } }

/-- C8 counterexample: with a first inlineData part lacking a data payload and
a second one carrying it, extraction fails even though an inline image payload
is present among the parts — `find(p => p.inlineData)` at
src/services/geminiService.ts line 129 stops at the first inlineData part. -/
theorem C8_first_part_counterexample :
    generateDiagramResult [partNoData, partWithData] =
      Except.error "Failed to generate image data from Nano Banana." ∧
    hasInlineImagePayload [partNoData, partWithData] = true :=
  ⟨rfl, rfl⟩

/-- C8 (amended): generate (and likewise refine) returns the data URI built
from the data of the first part carrying an inlineData field, and fails — with
RenderError and RefineError messages respectively — iff that first inlineData
part is missing or lacks a non-empty data string; success still implies some
inline payload exists, but an inline payload in a later part does not prevent
failure. -/
theorem C8_image_extraction (parts : List ResponsePart) :
    (∀ raw, truthyData (findInlineDataPart parts) = some raw →
        generateDiagramResult parts = Except.ok ("data:image/png;base64," ++ raw) ∧
        refineDiagramResult parts = Except.ok ("data:image/png;base64," ++ raw)) ∧
    (truthyData (findInlineDataPart parts) = none →
        generateDiagramResult parts =
          Except.error "Failed to generate image data from Nano Banana." ∧
        refineDiagramResult parts = Except.error "Failed to refine diagram.") ∧
    ((∃ u, generateDiagramResult parts = Except.ok u) →
        hasInlineImagePayload parts = true) := by
  refine ⟨?_, ?_, ?_⟩
  · intro raw hr
    constructor <;>
      simp [generateDiagramResult, refineDiagramResult, extractImage, hr]
  · intro hr
    constructor <;>
      simp [generateDiagramResult, refineDiagramResult, extractImage, hr]
  · rintro ⟨u, hu⟩
    unfold generateDiagramResult extractImage at hu
    cases hf : findInlineDataPart parts with
    | none => rw [hf] at hu; simp [truthyData] at hu
    | some part =>
        rw [hf] at hu
        have hmem : part ∈ parts := List.mem_of_find?_eq_some hf
        cases hid : part.inlineData with
        | none => simp [truthyData, hid] at hu
        | some d =>
            cases hdd : d.data with
            | none => simp [truthyData, hid, hdd] at hu
            | some r =>
                by_cases hr : r = ""
                · simp [truthyData, hid, hdd, hr] at hu
                · rw [hasInlineImagePayload, List.any_eq_true]
                  exact ⟨part, hmem, by simp [hid, hdd, hr]⟩

/-- Witness for C8 on a single part with a payload. -/
theorem C8_image_extraction_witness :
    generateDiagramResult [partWithData] =
      Except.ok ("data:image/png;base64," ++ "abc") ∧
    refineDiagramResult [partWithData] =
      Except.ok ("data:image/png;base64," ++ "abc") :=
  (C8_image_extraction [partWithData]).1 "abc" rfl

/-- C9 counterexample: at the reachable state produced by a failed analyze
(lastError = "boom"), navigating to SETUP is permitted, and it clears
lastError to null — `handleStepClick` runs `setError(null)` at src/App.tsx
line 81, so the command does not change only the stage pointer. -/
theorem C9_navigation_clears_error_counterexample :
    (handleFileUpload initialState (AnalyzeOutcome.failure "boom")).error =
      some "boom" ∧
    canNavigateTo (handleFileUpload initialState (AnalyzeOutcome.failure "boom"))
        AppStep.SETUP = true ∧
    (handleStepClick (handleFileUpload initialState (AnalyzeOutcome.failure "boom"))
        AppStep.SETUP).error = none := by
  refine ⟨by decide, by decide, by decide⟩

/-- C9 (amended): whenever canNavigate(X) holds, navigateTo(X) sets the stage
pointer to X and clears lastError, leaving analysis, currentImage, history,
refinementDraft, conferenceTarget and isLoading unchanged. -/
theorem C9_navigation_frame (s : AppState) (t : AppStep)
    (h : canNavigateTo s t = true) :
    handleStepClick s t = { s with step := t, error := none } := by
  simp [handleStepClick, h]

/-- Witness for C9: navigating to SETUP from the failed-analyze state. -/
theorem C9_navigation_frame_witness :
    handleStepClick (handleFileUpload initialState (AnalyzeOutcome.failure "boom"))
        AppStep.SETUP =
      { handleFileUpload initialState (AnalyzeOutcome.failure "boom") with
          step := AppStep.SETUP, error := none } :=
  C9_navigation_frame _ _ (by decide)

/-- C10: the analyze request is identical for any two conference values — the
conference argument is interpolated into neither the prompt nor the payload,
for the primary `analyzePaper` and for the prompts-module variant alike. -/
theorem C10_conference_noninterference (content : DocContent)
    (c1 c2 : ConferenceType) :
    analyzePaperRequest content c1 = analyzePaperRequest content c2 ∧
    analyzePaperRequestVariant content c1 = analyzePaperRequestVariant content c2 :=
  ⟨rfl, rfl⟩

end PaperArch
